import Mathlib

/-!
Shallow embedding of the core logic of the Micro Emergency Assistant
(src/workspace/micro-emergency-assistant/src/App.jsx and the Profile
component), with proofs of the specified properties.

Real-number arithmetic of the source (JavaScript floating point) is
modelled over the exact reals.
-/

/-- A coordinate pair in decimal degrees, as in the source objects with
fields lat and lon. -/
structure Coord where
  lat : ℝ
  lon : ℝ

/-- The fixed fallback coordinate ADDIS_FALLBACK from App.jsx. -/
noncomputable def ADDIS_FALLBACK : Coord := ⟨9.010793, 38.761253⟩

/-- Embedding of the JavaScript Math.atan2 function on real arguments,
following the ECMAScript case analysis on the signs of x and y. -/
noncomputable def atan2 (y x : ℝ) : ℝ :=
  if 0 < x then Real.arctan (y / x)
  else if x < 0 ∧ 0 ≤ y then Real.arctan (y / x) + Real.pi
  else if x < 0 ∧ y < 0 then Real.arctan (y / x) - Real.pi
  else if x = 0 ∧ 0 < y then Real.pi / 2
  else if x = 0 ∧ y < 0 then -(Real.pi / 2)
  else 0

/-- The quantity h computed inside haversineKm in App.jsx:
sin(dLat/2)^2 + cos(lat1) * cos(lat2) * sin(dLon/2)^2. -/
noncomputable def hav_h (a b : Coord) : ℝ :=
  let dLat := (b.lat - a.lat) * Real.pi / 180
  let dLon := (b.lon - a.lon) * Real.pi / 180
  let lat1 := a.lat * Real.pi / 180
  let lat2 := b.lat * Real.pi / 180
  Real.sin (dLat / 2) ^ 2 + Real.cos lat1 * Real.cos lat2 * Real.sin (dLon / 2) ^ 2

/-- The haversineKm function from App.jsx: great-circle distance with
Earth radius R = 6371, returning R * 2 * atan2(sqrt h, sqrt (1 - h)). -/
noncomputable def haversineKm (a b : Coord) : ℝ :=
  6371 * 2 * atan2 (Real.sqrt (hav_h a b)) (Real.sqrt (1 - hav_h a b))

/-- The calculateETA function from App.jsx: speed is 5 for mode walking
and 40 otherwise, and the result is Math.round of distance / speed * 60.
JavaScript Math.round coincides with the round function on the reals
(floor of x + 1/2). -/
noncomputable def calculateETA (distanceKm : ℝ) (mode : String) : ℤ :=
  let speed : ℝ := if mode == "walking" then 5 else 40
  round (distanceKm / speed * 60)

/-- A facility record of the static catalog: name, type, coordinates and
phone, as in emergency_data.json entries consumed by App.jsx. -/
structure Facility where
  name : String
  type : String
  lat : ℝ
  lon : ℝ
  phone : String

/-- A facility together with its computed distanceKm, as produced by the
object spread in findNearest. -/
structure RankedFacility extends Facility where
  distanceKm : ℝ

noncomputable instance : Inhabited RankedFacility :=
  ⟨⟨⟨"", "", 0, 0, ""⟩, 0⟩⟩

/-- The comparator passed to Array.prototype.sort in findNearest,
(a, b) => a.distanceKm - b.distanceKm, viewed as the boolean ordering it
induces (a before b exactly when a.distanceKm is at most b.distanceKm). -/
noncomputable def distLE (a b : RankedFacility) : Bool :=
  decide (a.distanceKm ≤ b.distanceKm)

/-- The comparator on index-tagged ranked facilities that orders first by
distanceKm and breaks ties by the original position: the order realized
by a stable sort under distLE. -/
noncomputable def tieLE (a b : ℕ × RankedFacility) : Bool :=
  decide (a.2.distanceKm < b.2.distanceKm ∨
    (a.2.distanceKm = b.2.distanceKm ∧ a.1 ≤ b.1))

/-- The possible return values of findNearest in App.jsx: null, a single
ranked facility (count = 1), or an array of ranked facilities. -/
inductive FindResult where
  | null : FindResult
  | one : RankedFacility → FindResult
  | many : List RankedFacility → FindResult

/-- The list of facilities carried by a findNearest result: null carries
none, a single object carries one, an array carries its elements. -/
def resultList : FindResult → List RankedFacility
  | .null => []
  | .one f => [f]
  | .many fs => fs

/-- The map step of findNearest: item => ({ ...item, distanceKm:
haversineKm(user, { lat: item.lat, lon: item.lon }) }). -/
noncomputable def tagWithDistance (user : Coord) (item : Facility) : RankedFacility :=
  { toFacility := item, distanceKm := haversineKm user ⟨item.lat, item.lon⟩ }

/-- The filtered and distance-tagged list built inside findNearest before
sorting. -/
noncomputable def taggedOf (user : Coord) (ty : String) (data : List Facility) :
    List RankedFacility :=
  (data.filter (fun d => d.type == ty)).map (tagWithDistance user)

/-- The findNearest function from App.jsx. The in-place stable sort of
Array.prototype.sort under the comparator a.distanceKm - b.distanceKm is
embedded as mergeSort under distLE; withDistance[0] is the head of the
sorted list and slice(0, count) is take count. -/
noncomputable def findNearest (user : Coord) (ty : String) (data : List Facility)
    (count : ℕ) : FindResult :=
  let filtered := data.filter (fun d => d.type == ty)
  if filtered.length = 0 then
    if count = 1 then FindResult.null else FindResult.many []
  else
    let withDistance := filtered.map (tagWithDistance user)
    let sorted := withDistance.mergeSort distLE
    if count = 1 then FindResult.one sorted.headI
    else FindResult.many (sorted.take count)

/-- The three ways the geolocation effect in App.jsx can resolve: the
capability is absent, the platform reports a position, or acquisition
fails (including by timeout). -/
inductive GeoOutcome where
  | unsupported : GeoOutcome
  | position : ℝ → ℝ → GeoOutcome
  | failure : GeoOutcome

/-- The observable result of the geolocation effect: the user coordinate
that gets set, and the user-visible error message, if any. -/
structure GeoResolution where
  user : Coord
  userVisibleError : Option String

/-- Embedding of the geolocation effect of App.jsx: without the
capability it sets the fallback, on success it sets the reported
coordinates, on error it sets the fallback; no branch sets an error. -/
noncomputable def resolveGeo : GeoOutcome → GeoResolution
  | .unsupported => ⟨ADDIS_FALLBACK, none⟩
  | .position lat lon => ⟨⟨lat, lon⟩, none⟩
  | .failure => ⟨ADDIS_FALLBACK, none⟩

/-- A mock responder record from responders.json: id, name, skill and
coordinates. -/
structure Responder where
  id : ℕ
  name : String
  skill : String
  lat : ℝ
  lon : ℝ

/-- A responder position entry as kept in responderPositions. -/
structure RespPos where
  id : ℕ
  lat : ℝ
  lon : ℝ

/-- The panic-mode related state of the App component: the isPanic flag,
whether the tracking interval is registered (trackingTimerRef.current),
whether the one-shot acceptance setTimeout is still pending, the
responderAccepted flag, the user coordinate, the loaded responders and
their positions, and a count of tracking pings sent. -/
structure PanicState where
  isPanic : Bool
  trackingTimer : Bool
  acceptTimeout : Bool
  responderAccepted : Bool
  user : Option Coord
  responders : List Responder
  responderPositions : List RespPos
  pings : ℕ

/-- The startPanicMode handler of App.jsx, with the fetched responder
list passed in: if isPanic is already set it returns immediately;
otherwise it sets isPanic, loads the responders and their initial
positions, registers the tracking interval, and schedules the one-shot
acceptance timeout. -/
def startPanicMode (list : List Responder) (s : PanicState) : PanicState :=
  if s.isPanic then s
  else
    { s with
      isPanic := true
      responders := list
      responderPositions := list.map (fun r => ⟨r.id, r.lat, r.lon⟩)
      trackingTimer := true
      acceptTimeout := true }

/-- The stopPanicMode handler of App.jsx: clears isPanic and
responderAccepted and clears the tracking interval. The pending
acceptance setTimeout is left as is, because the source never stores or
clears that timeout handle. -/
def stopPanicMode (s : PanicState) : PanicState :=
  { s with isPanic := false, responderAccepted := false, trackingTimer := false }

/-- One responder movement step from the tracking interval callback in
startPanicMode: step 0.0006, difference dLat, dLon to the user,
dist = Math.hypot(dLat, dLon); positions with dist below the 0.0008
threshold are returned unchanged, others move by (dLat/dist) * step and
(dLon/dist) * step. -/
noncomputable def moveResponder (user : Coord) (p : RespPos) : RespPos :=
  let step : ℝ := 0.0006
  let dLat := user.lat - p.lat
  let dLon := user.lon - p.lon
  let dist := Real.sqrt (dLat ^ 2 + dLon ^ 2)
  if dist < 0.0008 then p
  else { p with lat := p.lat + dLat / dist * step, lon := p.lon + dLon / dist * step }

/-- One firing of the tracking interval callback of startPanicMode, with
the random jitter values passed in. The callback only runs while the
interval is registered; it returns early when the user coordinate is
absent, and otherwise jitters the user coordinate, sends one tracking
ping, and moves every responder position toward the user coordinate. -/
noncomputable def panicTick (jLat jLon : ℝ) (s : PanicState) : PanicState :=
  if s.trackingTimer then
    match s.user with
    | none => s
    | some u =>
      { s with
        user := some ⟨u.lat + jLat, u.lon + jLon⟩
        pings := s.pings + 1
        responderPositions := s.responderPositions.map (moveResponder u) }
  else s

/-- The firing of the one-shot acceptance setTimeout scheduled by
startPanicMode: if it is still pending, it sets responderAccepted. -/
def acceptFire (s : PanicState) : PanicState :=
  if s.acceptTimeout then
    { s with acceptTimeout := false, responderAccepted := true }
  else s

/-- The idle state of the panic feature before any activation. -/
def initialPanicState (u : Option Coord) : PanicState :=
  { isPanic := false
    trackingTimer := false
    acceptTimeout := false
    responderAccepted := false
    user := u
    responders := []
    responderPositions := []
    pings := 0 }

/-- The user profile record of the Profile component: name, blood type,
allergies, chronic conditions and emergency contact, all free text. -/
structure UserProfile where
  name : String
  blood : String
  allergies : String
  chronic : String
  contact : String

/-- Modelled from the spec: the JSON string escaping performed by the
platform JSON.stringify (not part of src/) on the profile field values;
a backslash or double quote is preceded by a backslash. -/
def escChars : List Char → List Char
  | [] => []
  | c :: cs =>
    if c = '\\' ∨ c = '\"' then '\\' :: c :: escChars cs
    else c :: escChars cs

/-- Modelled from the spec: the inverse of the string escaping performed
by the platform JSON.parse (not part of src/); consumes characters up to
the closing unescaped double quote and returns the decoded field value
together with the rest of the input. -/
def unescChars : List Char → Option (List Char × List Char)
  | [] => none
  | ['\\'] => none
  | '\\' :: d :: cs2 =>
    match unescChars cs2 with
    | some (s, r) => some (d :: s, r)
    | none => none
  | '\"' :: cs => some ([], cs)
  | c :: cs =>
    match unescChars cs with
    | some (s, r) => some (c :: s, r)
    | none => none

/-- Consume an expected literal prefix of the input, failing when the
input does not start with it. -/
def dropLit : List Char → List Char → Option (List Char)
  | [], input => some input
  | _ :: _, [] => none
  | c :: cs, d :: input => if c = d then dropLit cs input else none

/-- The literal opening of the serialized profile payload up to the
first field value. -/
def litName : List Char := "\x7b\"name\":\"".data

/-- The literal between the name and blood field values. -/
def litBlood : List Char := ",\"blood\":\"".data

/-- The literal between the blood and allergies field values. -/
def litAllergies : List Char := ",\"allergies\":\"".data

/-- The literal between the allergies and chronic field values. -/
def litChronic : List Char := ",\"chronic\":\"".data

/-- The literal between the chronic and contact field values. -/
def litContact : List Char := ",\"contact\":\"".data

/-- The literal closing of the serialized profile payload. -/
def litEnd : List Char := "\x7d".data

/-- Modelled from the spec: the visual-code payload produced by
saveProfile in the Profile component, JSON.stringify of the profile
record with its five fields in insertion order; JSON.stringify and the
QR rendering are platform and third-party code not present in src/. -/
def encodeProfile (p : UserProfile) : String :=
  String.mk (litName ++ escChars p.name.data ++ '\"' ::
    (litBlood ++ escChars p.blood.data ++ '\"' ::
      (litAllergies ++ escChars p.allergies.data ++ '\"' ::
        (litChronic ++ escChars p.chronic.data ++ '\"' ::
          (litContact ++ escChars p.contact.data ++ '\"' :: litEnd)))))

/-- Modelled from the spec: the decoding side of onScanUpload in the
Profile component, JSON.parse of the decoded visual-code payload and
projection of the five profile fields; jsQR decoding and JSON.parse are
third-party and platform code not present in src/. Returns none when
the payload is not of the expected shape. -/
def decodeProfile (payload : String) : Option UserProfile :=
  match dropLit litName payload.data with
  | none => none
  | some r0 =>
    match unescChars r0 with
    | none => none
    | some (n, r1) =>
      match dropLit litBlood r1 with
      | none => none
      | some r2 =>
        match unescChars r2 with
        | none => none
        | some (b, r3) =>
          match dropLit litAllergies r3 with
          | none => none
          | some r4 =>
            match unescChars r4 with
            | none => none
            | some (al, r5) =>
              match dropLit litChronic r5 with
              | none => none
              | some r6 =>
                match unescChars r6 with
                | none => none
                | some (ch, r7) =>
                  match dropLit litContact r7 with
                  | none => none
                  | some r8 =>
                    match unescChars r8 with
                    | none => none
                    | some (co, r9) =>
                      match dropLit litEnd r9 with
                      | none => none
                      | some r10 =>
                        if r10 = [] then
                          some ⟨String.mk n, String.mk b, String.mk al,
                            String.mk ch, String.mk co⟩
                        else none

/-- Helper: the h quantity of the haversine computation is symmetric in
its two coordinates. -/
theorem hav_h_comm (a b : Coord) : hav_h a b = hav_h b a := by
  have key : ∀ x y : ℝ, Real.sin ((x - y) * Real.pi / 180 / 2) ^ 2
      = Real.sin ((y - x) * Real.pi / 180 / 2) ^ 2 := by
    intro x y
    rw [show (x - y) * Real.pi / 180 / 2 = -((y - x) * Real.pi / 180 / 2) by ring]
    rw [Real.sin_neg, neg_sq]
  simp only [hav_h]
  rw [key b.lat a.lat, key b.lon a.lon,
    mul_comm (Real.cos (a.lat * Real.pi / 180)) (Real.cos (b.lat * Real.pi / 180))]

/-- Claim C5: the haversine distance function vanishes on identical
coordinates and is symmetric in its two arguments. -/
theorem haversine_self_and_symm (a b : Coord) :
    haversineKm a a = 0 ∧ haversineKm a b = haversineKm b a := by
  constructor
  · have h0 : hav_h a a = 0 := by
      simp [hav_h]
    simp [haversineKm, h0, atan2, Real.sqrt_one, Real.arctan_zero]
  · rw [haversineKm, haversineKm, hav_h_comm a b]

/-- Claim C4: for every distance and travel mode, calculateETA rounds
distance / speed * 60 to the nearest integer with speed 5 for walking
and 40 for driving; ETA(walking, 5) = 60 and ETA(driving, 40) = 60. -/
theorem calculateETA_spec :
    (∀ d : ℝ, calculateETA d "walking" = round (d / 5 * 60)) ∧
    (∀ d : ℝ, calculateETA d "driving" = round (d / 40 * 60)) ∧
    calculateETA 5 "walking" = 60 ∧
    calculateETA 40 "driving" = 60 := by
  refine ⟨fun d => by simp [calculateETA], fun d => by simp [calculateETA], ?_, ?_⟩
  · show round ((5 : ℝ) / (if ("walking" == "walking") then (5:ℝ) else 40) * 60) = 60
    norm_num
  · show round ((40 : ℝ) / (if ("driving" == "walking") then (5:ℝ) else 40) * 60) = 60
    rw [show (("driving" : String) == "walking") = false by decide]
    norm_num

/-- Claim C7: when the geolocation capability is absent or acquisition
fails or times out, the resolved user coordinate is exactly the fixed
fallback coordinate (9.010793, 38.761253), with no user-visible error. -/
theorem geolocation_fallback_spec :
    resolveGeo GeoOutcome.unsupported = ⟨ADDIS_FALLBACK, none⟩ ∧
    resolveGeo GeoOutcome.failure = ⟨ADDIS_FALLBACK, none⟩ ∧
    ADDIS_FALLBACK = ⟨9.010793, 38.761253⟩ :=
  ⟨rfl, rfl, rfl⟩

/-- Claim C10: invoking startPanicMode while the panic flag is already
set changes no state and registers no additional timer. -/
theorem startPanic_noop_when_active (list : List Responder) (s : PanicState)
    (h : s.isPanic = true) : startPanicMode list s = s := by
  simp [startPanicMode, h]

/-- Witness for claim C10 at a concrete active state. -/
theorem startPanic_noop_when_active_witness :
    startPanicMode [] ⟨true, true, true, false, none, [], [], 0⟩
      = ⟨true, true, true, false, none, [], [], 0⟩ :=
  startPanic_noop_when_active [] ⟨true, true, true, false, none, [], [], 0⟩ rfl

/-- Claim C2 (code bug witness): entering panic mode and then leaving it
clears the panic flag, the accepted flag and the tracking interval, and
no tick can change the state afterwards; but the one-shot acceptance
timeout stays pending, and when it fires after deactivation it sets the
responderAccepted flag even though panic mode is off, contradicting the
claim that the pending delayed transition is cancelled and no
acceptance-flag change occurs after deactivation. -/
theorem stop_panic_dangling_accept_timeout :
    (stopPanicMode (startPanicMode [⟨1, "A", "medic", 9, 38⟩]
        (initialPanicState (some ⟨9, 38⟩)))).isPanic = false ∧
    (stopPanicMode (startPanicMode [⟨1, "A", "medic", 9, 38⟩]
        (initialPanicState (some ⟨9, 38⟩)))).trackingTimer = false ∧
    (stopPanicMode (startPanicMode [⟨1, "A", "medic", 9, 38⟩]
        (initialPanicState (some ⟨9, 38⟩)))).responderAccepted = false ∧
    (∀ jLat jLon : ℝ,
      panicTick jLat jLon (stopPanicMode (startPanicMode [⟨1, "A", "medic", 9, 38⟩]
        (initialPanicState (some ⟨9, 38⟩))))
      = stopPanicMode (startPanicMode [⟨1, "A", "medic", 9, 38⟩]
        (initialPanicState (some ⟨9, 38⟩)))) ∧
    (stopPanicMode (startPanicMode [⟨1, "A", "medic", 9, 38⟩]
        (initialPanicState (some ⟨9, 38⟩)))).acceptTimeout = true ∧
    (acceptFire (stopPanicMode (startPanicMode [⟨1, "A", "medic", 9, 38⟩]
        (initialPanicState (some ⟨9, 38⟩))))).responderAccepted = true ∧
    (acceptFire (stopPanicMode (startPanicMode [⟨1, "A", "medic", 9, 38⟩]
        (initialPanicState (some ⟨9, 38⟩))))).isPanic = false := by
  refine ⟨rfl, rfl, rfl, fun jLat jLon => ?_, rfl, rfl, rfl⟩
  simp [panicTick, stopPanicMode, startPanicMode, initialPanicState]

/-- Claim C3 counterexample: with an empty catalog and requested count
1, findNearest returns null, which is not an empty list result. -/
theorem findNearest_empty_k1_null :
    findNearest ⟨0, 0⟩ "hospital" [] 1 = FindResult.null ∧
    FindResult.null ≠ FindResult.many [] := by
  exact ⟨rfl, fun h => FindResult.noConfusion h⟩

/-- Claim C3 (amended): when the catalog has no facility of the
requested category, findNearest returns the empty list for every
requested count other than 1, and null (never undefined) for count 1. -/
theorem findNearest_empty_result (u : Coord) (ty : String) (data : List Facility)
    (k : ℕ) (h : data.filter (fun d => d.type == ty) = []) :
    findNearest u ty data k
      = if k = 1 then FindResult.null else FindResult.many [] := by
  simp [findNearest, h]

/-- Witness for the amended claim C3 at a concrete empty catalog. -/
theorem findNearest_empty_result_witness :
    findNearest ⟨0, 0⟩ "police" [] 3 = FindResult.many [] := by
  have h := findNearest_empty_result ⟨0, 0⟩ "police" [] 3 rfl
  simpa using h

/-- Claim C8: a responder position within the 0.0008 threshold of the
user coordinate is unchanged by a tick; any other responder position
moves by exactly the 0.0006 step along the straight-line bearing toward
the user (its displacement has norm 0.0006 and is positively
proportional to the coordinate difference), keeping its id. -/
theorem responder_step_spec (u : Coord) (p : RespPos) :
    (Real.sqrt ((u.lat - p.lat) ^ 2 + (u.lon - p.lon) ^ 2) < 0.0008 →
      moveResponder u p = p) ∧
    (¬ Real.sqrt ((u.lat - p.lat) ^ 2 + (u.lon - p.lon) ^ 2) < 0.0008 →
      (moveResponder u p).id = p.id ∧
      Real.sqrt (((moveResponder u p).lat - p.lat) ^ 2
          + ((moveResponder u p).lon - p.lon) ^ 2) = 0.0006 ∧
      ((moveResponder u p).lat - p.lat)
          * Real.sqrt ((u.lat - p.lat) ^ 2 + (u.lon - p.lon) ^ 2)
        = 0.0006 * (u.lat - p.lat) ∧
      ((moveResponder u p).lon - p.lon)
          * Real.sqrt ((u.lat - p.lat) ^ 2 + (u.lon - p.lon) ^ 2)
        = 0.0006 * (u.lon - p.lon)) := by
  constructor
  · intro h
    simp [moveResponder, h]
  · intro h
    have hge : (0.0008 : ℝ) ≤ Real.sqrt ((u.lat - p.lat) ^ 2 + (u.lon - p.lon) ^ 2) :=
      le_of_not_lt h
    have hpos : 0 < Real.sqrt ((u.lat - p.lat) ^ 2 + (u.lon - p.lon) ^ 2) := by
      linarith
    have hne : Real.sqrt ((u.lat - p.lat) ^ 2 + (u.lon - p.lon) ^ 2) ≠ 0 := ne_of_gt hpos
    have hsq : Real.sqrt ((u.lat - p.lat) ^ 2 + (u.lon - p.lon) ^ 2) ^ 2
        = (u.lat - p.lat) ^ 2 + (u.lon - p.lon) ^ 2 :=
      Real.sq_sqrt (by positivity)
    have hS : (u.lat - p.lat) ^ 2 + (u.lon - p.lon) ^ 2 ≠ 0 := by
      rw [← hsq]; exact pow_ne_zero 2 hne
    rw [moveResponder]
    simp only [h, if_false]
    refine ⟨by trivial, ?_, ?_, ?_⟩
    · have harg : (p.lat + (u.lat - p.lat)
            / Real.sqrt ((u.lat - p.lat) ^ 2 + (u.lon - p.lon) ^ 2) * 0.0006 - p.lat) ^ 2
          + (p.lon + (u.lon - p.lon)
            / Real.sqrt ((u.lat - p.lat) ^ 2 + (u.lon - p.lon) ^ 2) * 0.0006 - p.lon) ^ 2
          = (0.0006 : ℝ) ^ 2 := by
        have expand : (p.lat + (u.lat - p.lat)
              / Real.sqrt ((u.lat - p.lat) ^ 2 + (u.lon - p.lon) ^ 2) * 0.0006 - p.lat) ^ 2
            + (p.lon + (u.lon - p.lon)
              / Real.sqrt ((u.lat - p.lat) ^ 2 + (u.lon - p.lon) ^ 2) * 0.0006 - p.lon) ^ 2
            = (0.0006 : ℝ) ^ 2 * ((u.lat - p.lat) ^ 2 + (u.lon - p.lon) ^ 2)
              / Real.sqrt ((u.lat - p.lat) ^ 2 + (u.lon - p.lon) ^ 2) ^ 2 := by
          ring
        rw [expand, hsq, mul_div_assoc, div_self hS, mul_one]
      rw [harg]
      rw [Real.sqrt_sq (by norm_num)]
    · have e : p.lat + (u.lat - p.lat)
            / Real.sqrt ((u.lat - p.lat) ^ 2 + (u.lon - p.lon) ^ 2) * 0.0006 - p.lat
          = (u.lat - p.lat) * 0.0006
            / Real.sqrt ((u.lat - p.lat) ^ 2 + (u.lon - p.lon) ^ 2) := by
        ring
      rw [e, div_mul_cancel₀ _ hne]
      ring
    · have e : p.lon + (u.lon - p.lon)
            / Real.sqrt ((u.lat - p.lat) ^ 2 + (u.lon - p.lon) ^ 2) * 0.0006 - p.lon
          = (u.lon - p.lon) * 0.0006
            / Real.sqrt ((u.lat - p.lat) ^ 2 + (u.lon - p.lon) ^ 2) := by
        ring
      rw [e, div_mul_cancel₀ _ hne]
      ring

/-- Witness for claim C8: the threshold branch at coincident points, and
the id preservation of a far step. -/
theorem responder_step_spec_witness :
    moveResponder ⟨0, 0⟩ ⟨5, 0, 0⟩ = ⟨5, 0, 0⟩ ∧
    (moveResponder ⟨1, 0⟩ ⟨7, 0, 0⟩).id = 7 := by
  constructor
  · exact (responder_step_spec ⟨0, 0⟩ ⟨5, 0, 0⟩).1 (by
      norm_num [Real.sqrt_zero])
  · exact (((responder_step_spec ⟨1, 0⟩ ⟨7, 0, 0⟩).2 (by
      rw [show ((1 : ℝ) - 0) ^ 2 + ((0 : ℝ) - 0) ^ 2 = 1 by norm_num, Real.sqrt_one]
      norm_num))).1

/-- Helper: the comparator distLE is transitive. -/
theorem distLE_trans : ∀ a b c : RankedFacility, distLE a b → distLE b c → distLE a c := by
  intro a b c h1 h2
  simp only [distLE, decide_eq_true_eq] at h1 h2 ⊢
  exact le_trans h1 h2

/-- Helper: the comparator distLE is total. -/
theorem distLE_total : ∀ a b : RankedFacility, distLE a b || distLE b a := by
  intro a b
  simp only [distLE, Bool.or_eq_true, decide_eq_true_eq]
  exact le_total _ _

/-- Helper: the explicit distance-then-original-position comparator
coincides with the tie-breaking order enumLE induced by distLE. -/
theorem tieLE_eq_enumLE : tieLE = List.enumLE distLE := by
  funext a b
  by_cases hab : a.2.distanceKm ≤ b.2.distanceKm
  · by_cases hba : b.2.distanceKm ≤ a.2.distanceKm
    · have heq : a.2.distanceKm = b.2.distanceKm := le_antisymm hab hba
      simp [tieLE, List.enumLE, distLE, hab, hba, heq]
    · have hlt : a.2.distanceKm < b.2.distanceKm := lt_of_le_not_le hab hba
      simp [tieLE, List.enumLE, distLE, hab, hba, hlt]
  · by_cases hba : b.2.distanceKm ≤ a.2.distanceKm
    · have h1 : ¬ a.2.distanceKm < b.2.distanceKm := fun h => hab (le_of_lt h)
      have h2 : a.2.distanceKm ≠ b.2.distanceKm := fun h => hab (le_of_eq h)
      simp [tieLE, List.enumLE, distLE, hab, hba, h1, h2]
    · exact absurd (le_total a.2.distanceKm b.2.distanceKm) (by simp [hab, hba])

/-- Helper: taking one element of a nonempty list gives its head. -/
theorem take_one_headI {α : Type} [Inhabited α] {l : List α} (h : l ≠ []) :
    l.take 1 = [l.headI] := by
  cases l with
  | nil => exact absurd rfl h
  | cons a t => simp

/-- Claim C1: for every user coordinate, category, catalog and requested
count k, the list carried by the findNearest result is the
distance-tagged facilities of that category stably sorted ascending by
distanceKm and truncated to the first min(k, category count) elements:
it equals take k of the mergeSort of the tagged list, it is pairwise
sorted by distanceKm, its length is min k (category count), and the sort
coincides with the sort under the explicit comparator that orders by
distance and breaks ties by original catalog position. -/
theorem findNearest_ranked_spec (user : Coord) (ty : String) (data : List Facility)
    (k : ℕ) :
    resultList (findNearest user ty data k)
      = ((taggedOf user ty data).mergeSort distLE).take k
    ∧ List.Pairwise (fun a b : RankedFacility => a.distanceKm ≤ b.distanceKm)
        (resultList (findNearest user ty data k))
    ∧ (resultList (findNearest user ty data k)).length
        = min k (data.filter (fun d => d.type == ty)).length
    ∧ (taggedOf user ty data).mergeSort distLE
      = (((taggedOf user ty data).enum).mergeSort tieLE).map (fun q => q.2) := by
  have hmain : resultList (findNearest user ty data k)
      = ((taggedOf user ty data).mergeSort distLE).take k := by
    by_cases hfil : (data.filter (fun d => d.type == ty)).length = 0
    · have hnil : data.filter (fun d => d.type == ty) = [] :=
        List.length_eq_zero.mp hfil
      by_cases hk : k = 1 <;>
        simp [findNearest, hfil, hk, taggedOf, hnil, resultList]
    · by_cases hk : k = 1
      · have hne : ((data.filter (fun d => d.type == ty)).map
            (tagWithDistance user)).mergeSort distLE ≠ [] := by
          intro hcontra
          apply hfil
          have hlen := congrArg List.length hcontra
          simpa using hlen
        subst hk
        rw [taggedOf, take_one_headI hne]
        simp [findNearest, hfil, resultList]
      · simp [findNearest, hfil, hk, taggedOf, resultList]
  have hsorted := List.sorted_mergeSort distLE_trans distLE_total (taggedOf user ty data)
  refine ⟨hmain, ?_, ?_, ?_⟩
  · rw [hmain]
    have hsub := (hsorted.sublist (List.take_sublist k _))
    exact hsub.imp (fun h => by simpa [distLE] using h)
  · rw [hmain, List.length_take]
    simp [taggedOf]
  · rw [tieLE_eq_enumLE]
    exact (List.mergeSort_enum).symm

/-- Helper: consuming a literal prefix succeeds exactly on the rest. -/
theorem dropLit_append (lit rest : List Char) : dropLit lit (lit ++ rest) = some rest := by
  induction lit with
  | nil => rfl
  | cons c cs ih => simp [dropLit, ih]

/-- Helper: consuming a literal out of exactly itself leaves nothing. -/
theorem dropLit_self (lit : List Char) : dropLit lit lit = some [] := by
  have h := dropLit_append lit []
  simpa using h

/-- Helper: unescaping inverts escaping on any field value followed by
its closing double quote. -/
theorem unescChars_escChars (s rest : List Char) :
    unescChars (escChars s ++ '\"' :: rest) = some (s, rest) := by
  induction s with
  | nil => simp [escChars, unescChars]
  | cons c cs ih =>
    by_cases hc : c = '\\' ∨ c = '\"'
    · rcases hc with h | h <;> subst h <;> simp [escChars, unescChars, ih]
    · push_neg at hc
      simp [escChars, hc.1, hc.2, unescChars, ih]

/-- Claim C9: serializing any user profile to the visual-code payload
and decoding that payload back yields the profile unchanged, field for
field. -/
theorem profile_qr_roundtrip (p : UserProfile) :
    decodeProfile (encodeProfile p) = some p := by
  rw [decodeProfile, encodeProfile]
  simp only [List.append_assoc, List.cons_append]
  simp [dropLit_append, unescChars_escChars, dropLit_self]

/-- Helper: arctan is strictly below the identity on positive reals. -/
theorem arctan_lt_id (t : ℝ) (ht : 0 < t) : Real.arctan t < t := by
  have h0 : 0 < Real.arctan t := by
    rw [← Real.arctan_zero]
    exact Real.arctan_strictMono ht
  have h3 := Real.lt_tan h0 (Real.arctan_lt_pi_div_two t)
  rwa [Real.tan_arctan] at h3

/-- Helper: arctan is strictly above t / sqrt (1 + t^2) on positive
reals. -/
theorem arctan_gt_ratio (t : ℝ) (ht : 0 < t) :
    t / Real.sqrt (1 + t ^ 2) < Real.arctan t := by
  have h0 : 0 < Real.arctan t := by
    rw [← Real.arctan_zero]
    exact Real.arctan_strictMono ht
  have hs := Real.sin_lt h0
  rwa [Real.sin_arctan] at hs

/-- Helper: two-sided bounds on the square of the sine of a small
positive argument. -/
theorem sin_sq_bounds (x : ℝ) (hx : 0 < x) (hx1 : x ≤ 1) :
    (x - x ^ 3 / 4) ^ 2 ≤ Real.sin x ^ 2 ∧ Real.sin x ^ 2 ≤ x ^ 2 := by
  have hub := Real.sin_lt hx
  have hlb := Real.sin_gt_sub_cube hx hx1
  have key : 0 ≤ x * (1 - x) * (1 + x) :=
    mul_nonneg (mul_nonneg (le_of_lt hx) (by linarith)) (by linarith)
  have hx3 : 0 < x ^ 3 := pow_pos hx 3
  have hpos : 0 < x - x ^ 3 / 4 := by nlinarith [key, hx3]
  constructor
  · nlinarith
  · nlinarith

set_option maxHeartbeats 1600000 in
/-- Helper: rational two-sided bounds on the h value of the scenario
with the user at the Addis fallback and a hospital at (9.02, 38.75). -/
theorem scenario_h_bounds :
    (0.00012594 : ℝ) ^ 2 ≤ hav_h ADDIS_FALLBACK ⟨9.02, 38.75⟩ ∧
    hav_h ADDIS_FALLBACK ⟨9.02, 38.75⟩ ≤ (0.00012689 : ℝ) ^ 2 := by
  have hpi_lo : (3.141592 : ℝ) < Real.pi := Real.pi_gt_d6
  have hpi_hi : Real.pi < 3.141593 := Real.pi_lt_d6
  have hexp : hav_h ADDIS_FALLBACK ⟨9.02, 38.75⟩
      = Real.sin (0.009207 * Real.pi / 360) ^ 2
        + Real.cos (9.010793 * Real.pi / 180) * Real.cos (9.02 * Real.pi / 180)
          * Real.sin (0.011253 * Real.pi / 360) ^ 2 := by
    show Real.sin (((9.02 : ℝ) - 9.010793) * Real.pi / 180 / 2) ^ 2
        + Real.cos ((9.010793 : ℝ) * Real.pi / 180) * Real.cos ((9.02 : ℝ) * Real.pi / 180)
          * Real.sin (((38.75 : ℝ) - 38.761253) * Real.pi / 180 / 2) ^ 2 = _
    rw [show ((9.02 : ℝ) - 9.010793) * Real.pi / 180 / 2 = 0.009207 * Real.pi / 360 by
      rw [show ((9.02 : ℝ) - 9.010793) = 0.009207 by norm_num]; ring]
    rw [show ((38.75 : ℝ) - 38.761253) * Real.pi / 180 / 2 = -(0.011253 * Real.pi / 360) by
      rw [show ((38.75 : ℝ) - 38.761253) = -0.011253 by norm_num]; ring]
    rw [Real.sin_neg, neg_sq]
  rw [hexp]
  set xA : ℝ := 0.009207 * Real.pi / 360 with hxA_def
  set xB : ℝ := 0.011253 * Real.pi / 360 with hxB_def
  set t1 : ℝ := 9.010793 * Real.pi / 180 with ht1_def
  set t2 : ℝ := 9.02 * Real.pi / 180 with ht2_def
  have hxA_lb : (0.009207 : ℝ) * 3.141592 / 360 ≤ xA := by rw [hxA_def]; linarith
  have hxA_ub : xA ≤ (0.009207 : ℝ) * 3.141593 / 360 := by rw [hxA_def]; linarith
  have hxB_lb : (0.011253 : ℝ) * 3.141592 / 360 ≤ xB := by rw [hxB_def]; linarith
  have hxB_ub : xB ≤ (0.011253 : ℝ) * 3.141593 / 360 := by rw [hxB_def]; linarith
  have ht1_lb : (0 : ℝ) ≤ t1 := by rw [ht1_def]; nlinarith
  have ht1_ub : t1 ≤ (9.010793 : ℝ) * 3.141593 / 180 := by rw [ht1_def]; nlinarith
  have ht2_lb : (0 : ℝ) ≤ t2 := by rw [ht2_def]; nlinarith
  have ht2_ub : t2 ≤ (9.02 : ℝ) * 3.141593 / 180 := by rw [ht2_def]; nlinarith
  have hxA_pos : 0 < xA := by
    have : (0 : ℝ) < 0.009207 * 3.141592 / 360 := by norm_num
    linarith
  have hxB_pos : 0 < xB := by
    have : (0 : ℝ) < 0.011253 * 3.141592 / 360 := by norm_num
    linarith
  have hxA_le_one : xA ≤ 1 := by
    have : (0.009207 : ℝ) * 3.141593 / 360 ≤ 1 := by norm_num
    linarith
  have hxB_le_one : xB ≤ 1 := by
    have : (0.011253 : ℝ) * 3.141593 / 360 ≤ 1 := by norm_num
    linarith
  have hsinA := sin_sq_bounds xA hxA_pos hxA_le_one
  have hsinB := sin_sq_bounds xB hxB_pos hxB_le_one
  have hA_ub : Real.sin xA ^ 2 ≤ ((0.009207 : ℝ) * 3.141593 / 360) ^ 2 :=
    le_trans hsinA.2 (pow_le_pow_left₀ (le_of_lt hxA_pos) hxA_ub 2)
  have hB_ub : Real.sin xB ^ 2 ≤ ((0.011253 : ℝ) * 3.141593 / 360) ^ 2 :=
    le_trans hsinB.2 (pow_le_pow_left₀ (le_of_lt hxB_pos) hxB_ub 2)
  have hA3 : xA ^ 3 ≤ ((0.009207 : ℝ) * 3.141593 / 360) ^ 3 :=
    pow_le_pow_left₀ (le_of_lt hxA_pos) hxA_ub 3
  have hB3 : xB ^ 3 ≤ ((0.011253 : ℝ) * 3.141593 / 360) ^ 3 :=
    pow_le_pow_left₀ (le_of_lt hxB_pos) hxB_ub 3
  have hA_arg : (0.009207 : ℝ) * 3.141592 / 360 - ((0.009207 : ℝ) * 3.141593 / 360) ^ 3 / 4
      ≤ xA - xA ^ 3 / 4 := by linarith
  have hB_arg : (0.011253 : ℝ) * 3.141592 / 360 - ((0.011253 : ℝ) * 3.141593 / 360) ^ 3 / 4
      ≤ xB - xB ^ 3 / 4 := by linarith
  have hA_arg_nonneg : (0 : ℝ)
      ≤ 0.009207 * 3.141592 / 360 - ((0.009207 : ℝ) * 3.141593 / 360) ^ 3 / 4 := by
    norm_num
  have hB_arg_nonneg : (0 : ℝ)
      ≤ 0.011253 * 3.141592 / 360 - ((0.011253 : ℝ) * 3.141593 / 360) ^ 3 / 4 := by
    norm_num
  have hA_lb : ((0.009207 : ℝ) * 3.141592 / 360 - ((0.009207 : ℝ) * 3.141593 / 360) ^ 3 / 4) ^ 2
      ≤ Real.sin xA ^ 2 :=
    le_trans (pow_le_pow_left₀ hA_arg_nonneg hA_arg 2) hsinA.1
  have hB_lb : ((0.011253 : ℝ) * 3.141592 / 360 - ((0.011253 : ℝ) * 3.141593 / 360) ^ 3 / 4) ^ 2
      ≤ Real.sin xB ^ 2 :=
    le_trans (pow_le_pow_left₀ hB_arg_nonneg hB_arg 2) hsinB.1
  have hcos1_ub : Real.cos t1 ≤ 1 := Real.cos_le_one t1
  have hcos2_ub : Real.cos t2 ≤ 1 := Real.cos_le_one t2
  have ht1_sq : t1 ^ 2 ≤ ((9.010793 : ℝ) * 3.141593 / 180) ^ 2 :=
    pow_le_pow_left₀ ht1_lb ht1_ub 2
  have ht2_sq : t2 ^ 2 ≤ ((9.02 : ℝ) * 3.141593 / 180) ^ 2 :=
    pow_le_pow_left₀ ht2_lb ht2_ub 2
  have hcos1_lb : (1 : ℝ) - ((9.010793 : ℝ) * 3.141593 / 180) ^ 2 / 2 ≤ Real.cos t1 := by
    have h := @Real.one_sub_sq_div_two_le_cos t1
    linarith
  have hcos2_lb : (1 : ℝ) - ((9.02 : ℝ) * 3.141593 / 180) ^ 2 / 2 ≤ Real.cos t2 := by
    have h := @Real.one_sub_sq_div_two_le_cos t2
    linarith
  have hcos1_nonneg : 0 ≤ Real.cos t1 := by
    have : (0 : ℝ) ≤ 1 - ((9.010793 : ℝ) * 3.141593 / 180) ^ 2 / 2 := by norm_num
    linarith
  have hcos2_nonneg : 0 ≤ Real.cos t2 := by
    have : (0 : ℝ) ≤ 1 - ((9.02 : ℝ) * 3.141593 / 180) ^ 2 / 2 := by norm_num
    linarith
  have hprod_lb : ((1 : ℝ) - ((9.010793 : ℝ) * 3.141593 / 180) ^ 2 / 2)
        * ((1 : ℝ) - ((9.02 : ℝ) * 3.141593 / 180) ^ 2 / 2)
      ≤ Real.cos t1 * Real.cos t2 :=
    mul_le_mul hcos1_lb hcos2_lb (by norm_num) hcos1_nonneg
  have hprod_ub : Real.cos t1 * Real.cos t2 ≤ 1 :=
    mul_le_one₀ hcos1_ub hcos2_nonneg hcos2_ub
  have hterm_ub : Real.cos t1 * Real.cos t2 * Real.sin xB ^ 2
      ≤ ((0.011253 : ℝ) * 3.141593 / 360) ^ 2 := by
    have h1 : Real.cos t1 * Real.cos t2 * Real.sin xB ^ 2 ≤ Real.sin xB ^ 2 :=
      mul_le_of_le_one_left (sq_nonneg _) hprod_ub
    linarith
  have hterm_lb : (((1 : ℝ) - ((9.010793 : ℝ) * 3.141593 / 180) ^ 2 / 2)
        * ((1 : ℝ) - ((9.02 : ℝ) * 3.141593 / 180) ^ 2 / 2))
        * (((0.011253 : ℝ) * 3.141592 / 360
            - ((0.011253 : ℝ) * 3.141593 / 360) ^ 3 / 4) ^ 2)
      ≤ Real.cos t1 * Real.cos t2 * Real.sin xB ^ 2 :=
    mul_le_mul hprod_lb hB_lb (sq_nonneg _) (mul_nonneg hcos1_nonneg hcos2_nonneg)
  constructor
  · have hnum : (0.00012594 : ℝ) ^ 2
        ≤ ((0.009207 : ℝ) * 3.141592 / 360 - ((0.009207 : ℝ) * 3.141593 / 360) ^ 3 / 4) ^ 2
          + (((1 : ℝ) - ((9.010793 : ℝ) * 3.141593 / 180) ^ 2 / 2)
              * ((1 : ℝ) - ((9.02 : ℝ) * 3.141593 / 180) ^ 2 / 2))
            * (((0.011253 : ℝ) * 3.141592 / 360
                - ((0.011253 : ℝ) * 3.141593 / 360) ^ 3 / 4) ^ 2) := by
      norm_num
    linarith
  · have hnum : ((0.009207 : ℝ) * 3.141593 / 360) ^ 2 + ((0.011253 : ℝ) * 3.141593 / 360) ^ 2
        ≤ (0.00012689 : ℝ) ^ 2 := by
      norm_num
    linarith

set_option maxHeartbeats 800000 in
/-- Helper: the computed haversine distance of the Addis scenario lies
strictly between 1.5 and 5/3 kilometers. -/
theorem scenario_dist_bounds :
    1.5 < haversineKm ADDIS_FALLBACK ⟨9.02, 38.75⟩ ∧
    haversineKm ADDIS_FALLBACK ⟨9.02, 38.75⟩ < 5 / 3 := by
  obtain ⟨hlo, hhi⟩ := scenario_h_bounds
  set h : ℝ := hav_h ADDIS_FALLBACK ⟨9.02, 38.75⟩ with hdef
  have hh_nonneg : 0 ≤ h := le_trans (by norm_num) hlo
  have hsq_lb : (0.00012594 : ℝ) ≤ Real.sqrt h := Real.le_sqrt_of_sq_le hlo
  have hsq_ub : Real.sqrt h ≤ (0.00012689 : ℝ) :=
    (Real.sqrt_le_left (by norm_num)).mpr hhi
  have h1m_lb : (0.9999999 : ℝ) ≤ Real.sqrt (1 - h) := by
    apply Real.le_sqrt_of_sq_le
    have hstep : (0.9999999 : ℝ) ^ 2 ≤ 1 - (0.00012689 : ℝ) ^ 2 := by norm_num
    linarith
  have h1m_ub : Real.sqrt (1 - h) ≤ 1 := by
    have hstep : (1 : ℝ) - h ≤ 1 ^ 2 := by nlinarith
    exact (Real.sqrt_le_left (by norm_num)).mpr hstep
  have hpos1m : 0 < Real.sqrt (1 - h) := lt_of_lt_of_le (by norm_num) h1m_lb
  have hav_eq : haversineKm ADDIS_FALLBACK ⟨9.02, 38.75⟩
      = 6371 * 2 * Real.arctan (Real.sqrt h / Real.sqrt (1 - h)) := by
    rw [haversineKm, ← hdef, atan2, if_pos hpos1m]
  set t : ℝ := Real.sqrt h / Real.sqrt (1 - h) with htdef
  have ht_lb : (0.00012594 : ℝ) ≤ t := by
    have hstep : Real.sqrt h ≤ t := by
      rw [htdef, le_div_iff₀ hpos1m]
      exact mul_le_of_le_one_right (Real.sqrt_nonneg _) h1m_ub
    linarith
  have ht_ub : t ≤ (0.00012689 : ℝ) / 0.9999999 := by
    rw [htdef]
    exact div_le_div₀ (by norm_num) hsq_ub (by norm_num) h1m_lb
  have ht_pos : 0 < t := lt_of_lt_of_le (by norm_num) ht_lb
  constructor
  · have harc1 : Real.arctan (0.00012594 : ℝ) ≤ Real.arctan t :=
      Real.arctan_strictMono.monotone ht_lb
    have harc2 := arctan_gt_ratio (0.00012594 : ℝ) (by norm_num)
    have hsq1 : Real.sqrt (1 + (0.00012594 : ℝ) ^ 2) ≤ 1.000001 := by
      apply (Real.sqrt_le_left (by norm_num)).mpr
      norm_num
    have hratio : (0.00012594 : ℝ) / 1.000001
        ≤ (0.00012594 : ℝ) / Real.sqrt (1 + (0.00012594 : ℝ) ^ 2) := by
      gcongr
    rw [hav_eq]
    linarith
  · have harc := arctan_lt_id t ht_pos
    have hstep : Real.arctan t < (0.00012689 : ℝ) / 0.9999999 :=
      lt_of_lt_of_le harc ht_ub
    rw [hav_eq]
    linarith

/-- Claim C6 counterexample: for the user at the Addis fallback and the
single hospital at (9.02, 38.75), the computed haversine distance
exceeds 1.5 km, so it does not lie in the claimed range 1.3 to 1.5 km. -/
theorem hospital_scenario_range_cex :
    1.5 < haversineKm ADDIS_FALLBACK ⟨9.02, 38.75⟩ ∧
    ((1.3 ≤ haversineKm ADDIS_FALLBACK ⟨9.02, 38.75⟩ ∧
      haversineKm ADDIS_FALLBACK ⟨9.02, 38.75⟩ ≤ 1.5) ↔ False) := by
  obtain ⟨h1, h2⟩ := scenario_dist_bounds
  refine ⟨h1, iff_false_intro fun hcl => ?_⟩
  have hb := hcl.2
  linarith

/-- Claim C6 (amended): for the user at the Addis fallback and a catalog
with exactly one hospital at (9.02, 38.75), the selector for hospital
with k = 1 returns that facility tagged with its computed haversine
distance, the distance lies strictly between 1.5 and 1.7 km, and its
driving ETA is 2 minutes. -/
theorem hospital_scenario_amended :
    findNearest ADDIS_FALLBACK "hospital"
        [⟨"City Hospital", "hospital", 9.02, 38.75, "911"⟩] 1
      = FindResult.one ⟨⟨"City Hospital", "hospital", 9.02, 38.75, "911"⟩,
          haversineKm ADDIS_FALLBACK ⟨9.02, 38.75⟩⟩ ∧
    1.5 < haversineKm ADDIS_FALLBACK ⟨9.02, 38.75⟩ ∧
    haversineKm ADDIS_FALLBACK ⟨9.02, 38.75⟩ < 1.7 ∧
    calculateETA (haversineKm ADDIS_FALLBACK ⟨9.02, 38.75⟩) "driving" = 2 := by
  obtain ⟨h1, h2⟩ := scenario_dist_bounds
  refine ⟨?_, h1, by linarith, ?_⟩
  · simp [findNearest, tagWithDistance]
  · have heta : calculateETA (haversineKm ADDIS_FALLBACK ⟨9.02, 38.75⟩) "driving"
        = round (haversineKm ADDIS_FALLBACK ⟨9.02, 38.75⟩ / 40 * 60) := by
      simp [calculateETA]
    rw [heta, round_eq, Int.floor_eq_iff]
    constructor
    · push_cast
      linarith
    · push_cast
      linarith
